import Mathlib

/-!
Verification development for the CasJobs client module
(src/py3/SciServer/CasJobs.py of SciScript-Python).

The module is a thin HTTP client.  We embed it shallowly:

* external collaborators (the Authentication module, Config, the json
  library, pandas, the HTTP transport) are fields of an `Env` record or an
  explicit HTTP oracle `Request → Response`;
* every operation is a pure Lean function returning its Python result
  (or the raised exception) in `Except PyErr`, paired with the list of
  network requests it issued;
* Python 3 dynamic-typing effects that matter here (bytes vs str at a
  binary file write) are modelled with an explicit sum type `StrOrBytes`.
-/

namespace CasJobs

/-- Python exceptions that the embedded code can raise. -/
inductive PyErr where
  | exn (msg : String)
  | typeError (msg : String)
  | keyError (key : String)
  | indexError
  | valueError (msg : String)
deriving Repr, DecidableEq

/-- A Python 3 value that is either a `str` or a `bytes` object (the byte
payloads we care about are textual, so we carry the text). -/
inductive StrOrBytes where
  | str (s : String)
  | bytes (b : String)
deriving Repr, DecidableEq

/-- JSON values, the decoding target of `json.loads`. -/
inductive JVal where
  | null
  | bool (b : Bool)
  | num (n : Int)
  | str (s : String)
  | arr (elems : List JVal)
  | obj (fields : List (String × JVal))
deriving Repr

/-- First-match association-list lookup, the dict lookup of the decoded
JSON object. -/
def jlookup : List (String × JVal) → String → Option JVal
  | [], _ => none
  | (k, v) :: rest, key => if k == key then some v else jlookup rest key

/-- Python subscript `d[key]` on a decoded JSON value: `KeyError` when the
key is missing, `TypeError` when the value is not an object. -/
def JVal.getItem : JVal → String → Except PyErr JVal
  | .obj fields, key =>
      match jlookup fields key with
      | some v => .ok v
      | none => .error (.keyError key)
  | _, _ => .error (.typeError "object is not subscriptable")

/-- Python subscript `xs[i]` on a decoded JSON value: `IndexError` when out
of range, `TypeError` when the value is not an array. -/
def JVal.getIdx : JVal → Nat → Except PyErr JVal
  | .arr elems, i =>
      match elems.get? i with
      | some v => .ok v
      | none => .error .indexError
  | _, _ => .error (.typeError "object is not subscriptable")

/-- Python `str(...)` on a decoded JSON value. -/
def pyStr : JVal → String
  | .null => "None"
  | .bool b => if b then "True" else "False"
  | .num n => toString n
  | .str s => s
  | .arr _ => "[...]"
  | .obj _ => "\x7b...\x7d"

/-- Python `int(...)` on a decoded JSON value. -/
def pyInt : JVal → Except PyErr Int
  | .num n => .ok n
  | .bool b => .ok (if b then 1 else 0)
  | .str s =>
      match s.trim.toInt? with
      | some n => .ok n
      | none => .error (.valueError "invalid literal for int()")
  | _ => .error (.typeError "int() argument must be a string or a number")

/-- An HTTP request as issued through the `requests` library. -/
structure Request where
  method : String
  url : String
  data : Option StrOrBytes
  headers : List (String × String)
deriving Repr, DecidableEq

/-- An HTTP response; `content` is the UTF-8 text of the response body
(the code always reads it through `.content.decode()`). -/
structure Response where
  status : Nat
  content : String
deriving Repr, DecidableEq

/-- A pandas DataFrame as the upload helpers see it: a named-or-unnamed
row index, the index entries, the column labels and the cell grid, all
rendered as text. -/
structure DataFrame where
  indexName : Option String
  indexVals : List String
  columns : List String
  rows : List (List String)
deriving Repr, DecidableEq

/-- Separator join (the CSV rendering primitive). -/
def joinWith (sep : String) : List String → String
  | [] => ""
  | [a] => a
  | a :: b :: rest => a ++ sep ++ joinWith sep (b :: rest)

/-- pandas `DataFrame.to_csv()` with default arguments: a header row
holding the index name (empty when unnamed) followed by the column labels,
comma-separated, then one line per row (index entry first), each line
terminated by a newline. -/
def DataFrame.to_csv (df : DataFrame) : String :=
  let headerRow := joinWith "," (df.indexName.getD "" :: df.columns)
  let dataRows := (df.indexVals.zip df.rows).map (fun p => joinWith "," (p.1 :: p.2))
  joinWith "\n" (headerRow :: dataRows) ++ "\n"

/-- The external collaborators of the module: session store
(`Authentication.getToken`, `Authentication.getKeystoneUserWithToken`),
configuration (`Config.CasJobsRESTUri`,
`Config.isSciServerComputeEnvironment`), the json codec and the pandas
readers used by the download helpers. -/
structure Env where
  token : Option String
  keystoneUserId : String
  casJobsRESTUri : String
  isSciServerComputeEnvironment : Bool
  jsonLoads : String → Option JVal
  jsonDumps : JVal → String
  readCsv : String → Option Nat → DataFrame
  asMatrix : DataFrame → List (List String)

/-- Model of `json.loads`, raising `ValueError` on undecodable input. -/
def jsonLoadsE (env : Env) (s : String) : Except PyErr JVal :=
  match env.jsonLoads s with
  | some j => .ok j
  | none => .error (.valueError "No JSON object could be decoded")

/-- The message of the exception raised when the token is missing or
empty. -/
def notLoggedInMsg : String := "User token is not defined. First log into SciServer."

/-- Python 3 file object opened in binary mode ("w+b"): `write` accepts
only a bytes-like object and raises `TypeError` on a `str` argument. -/
def binFileWrite : StrOrBytes → Except PyErr String
  | .bytes b => .ok b
  | .str _ => .error (.typeError "a bytes-like object is required, not str")

/-- The task-name annotation sent with queries and jobs, depending on the
detected compute environment. -/
def taskNameFor (env : Env) (op : String) : String :=
  if env.isSciServerComputeEnvironment then "Compute.SciScript-Python.CasJobs." ++ op
  else "SciScript-Python.CasJobs." ++ op

/-- Model of `json.dumps` applied to the Query/TaskName body, encoded. -/
def queryBody (env : Env) (sql taskName : String) : String :=
  env.jsonDumps (.obj [("Query", .str sql), ("TaskName", .str taskName)])

/-- The conditional auth header of `executeQuery`: present exactly when the
token is neither None nor empty. -/
def authHeaderOpt (env : Env) : List (String × String) :=
  match env.token with
  | some t => if t != "" then [("X-Auth-Token", t)] else []
  | none => []

/-- The GET request of `getSchemaName` against the per-identity profile
endpoint. -/
def usersRequest (env : Env) (token : String) : Request :=
  ⟨"GET", env.casJobsRESTUri ++ "/users/" ++ env.keystoneUserId, none,
    [("X-Auth-Token", token), ("Content-Type", "application/json")]⟩

/-- Model of `CasJobs.getSchemaName()`. -/
def getSchemaName (env : Env) (http : Request → Response) :
    Except PyErr String × List Request :=
  match env.token with
  | some token =>
      if token != "" then
        let getResponse := http (usersRequest env token)
        if getResponse.status != 200 then
          (.error (.exn ("Error when getting schema name. Http Response from CasJobs API returned status code "
            ++ toString getResponse.status ++ ":\n" ++ getResponse.content)), [usersRequest env token])
        else
          match jsonLoadsE env getResponse.content with
          | .error e => (.error e, [usersRequest env token])
          | .ok jsonResponse =>
              match jsonResponse.getItem "WebServicesId" with
              | .error e => (.error e, [usersRequest env token])
              | .ok wsid => (.ok ("wsid_" ++ pyStr wsid), [usersRequest env token])
      else (.error (.exn notLoggedInMsg), [])
  | none => (.error (.exn notLoggedInMsg), [])

/-- The GET request of `getTables`. -/
def tablesRequest (env : Env) (token context : String) : Request :=
  ⟨"GET", env.casJobsRESTUri ++ "/contexts/" ++ context ++ "/Tables", none,
    [("X-Auth-Token", token), ("Content-Type", "application/json")]⟩

/-- Model of `CasJobs.getTables(context)`. -/
def getTables (env : Env) (http : Request → Response) (context : String) :
    Except PyErr JVal × List Request :=
  match env.token with
  | some token =>
      if token != "" then
        let getResponse := http (tablesRequest env token context)
        if getResponse.status != 200 then
          (.error (.exn ("Error when getting table description from database context "
            ++ context ++ ".\nHttp Response from CasJobs API returned status code "
            ++ toString getResponse.status ++ ":\n" ++ getResponse.content)), [tablesRequest env token context])
        else
          match jsonLoadsE env getResponse.content with
          | .error e => (.error e, [tablesRequest env token context])
          | .ok jsonResponse => (.ok jsonResponse, [tablesRequest env token context])
      else (.error (.exn notLoggedInMsg), [])
  | none => (.error (.exn notLoggedInMsg), [])

/-- The format-to-accept-header branching at the top of `executeQuery`;
an unrecognized format raises before anything else happens. -/
def acceptHeaderFor (format : String) : Except PyErr String :=
  if format == "pandas" || format == "json" then .ok "application/json+array"
  else if format == "csv" || format == "readable" then .ok "text/plain"
  else if format == "fits" then .ok "application/fits"
  else .error (.exn ("Error when executing query. Illegal format parameter specification: " ++ format))

/-- Results of `executeQuery`, one constructor per return shape of the
source: `StringIO` wrappers for the readable and fits formats, a pandas
frame built from the Data rows and Columns labels, the raw csv text, and
the decoded JSON value. -/
inductive QueryResult where
  | stringIOWrap (s : String)
  | frame (data : JVal) (columns : JVal)
  | csv (s : String)
  | jsonVal (j : JVal)
deriving Repr

/-- The per-format decoding of the successful response body in
`executeQuery` (source lines 119-132). -/
def decodeQueryResponse (env : Env) (format : String) (r : String) : Except PyErr QueryResult :=
  if format == "readable" then .ok (.stringIOWrap r)
  else if format == "pandas" then
    match jsonLoadsE env r with
    | .error e => .error e
    | .ok j =>
        match j.getItem "Result" with
        | .error e => .error e
        | .ok res =>
            match res.getIdx 0 with
            | .error e => .error e
            | .ok first =>
                match first.getItem "Data" with
                | .error e => .error e
                | .ok data =>
                    match first.getItem "Columns" with
                    | .error e => .error e
                    | .ok cols => .ok (.frame data cols)
  else if format == "csv" then .ok (.csv r)
  else if format == "json" then
    match jsonLoadsE env r with
    | .error e => .error e
    | .ok j => .ok (.jsonVal j)
  else if format == "fits" then .ok (.stringIOWrap r)
  else .error (.exn ("Error when executing query. Illegal format parameter specification: " ++ format))

/-- The POST request of `executeQuery`; note that the auth header is only
appended when a non-empty token exists. -/
def executeQueryRequest (env : Env) (sql context acceptHeader : String) : Request :=
  ⟨"POST", env.casJobsRESTUri ++ "/contexts/" ++ context ++ "/query",
    some (.bytes (queryBody env sql (taskNameFor env "executeQuery"))),
    [("Content-Type", "application/json"), ("Accept", acceptHeader)] ++ authHeaderOpt env⟩

/-- Model of `CasJobs.executeQuery(sql, context, format)`. -/
def executeQuery (env : Env) (http : Request → Response) (sql context format : String) :
    Except PyErr QueryResult × List Request :=
  match acceptHeaderFor format with
  | .error e => (.error e, [])
  | .ok acceptHeader =>
      let req := executeQueryRequest env sql context acceptHeader
      let postResponse := http req
      if postResponse.status != 200 then
        (.error (.exn ("Error when executing query. Http Response from CasJobs API returned status code "
          ++ toString postResponse.status ++ ":\n" ++ postResponse.content)), [req])
      else
        (decodeQueryResponse env format postResponse.content, [req])

/-- The PUT request of `submitJob`. -/
def jobsRequest (env : Env) (token sql context : String) : Request :=
  ⟨"PUT", env.casJobsRESTUri ++ "/contexts/" ++ context ++ "/jobs",
    some (.bytes (queryBody env sql (taskNameFor env "submitJob"))),
    [("Content-Type", "application/json"), ("Accept", "text/plain"), ("X-Auth-Token", token)]⟩

/-- Model of `CasJobs.submitJob(sql, context)`. -/
def submitJob (env : Env) (http : Request → Response) (sql context : String) :
    Except PyErr Int × List Request :=
  match env.token with
  | some token =>
      if token != "" then
        let putResponse := http (jobsRequest env token sql context)
        if putResponse.status != 200 then
          (.error (.exn ("Error when submitting a job. Http Response from CasJobs API returned status code "
            ++ toString putResponse.status ++ ":\n" ++ putResponse.content)), [jobsRequest env token sql context])
        else
          match (putResponse.content).trim.toInt? with
          | some n => (.ok n, [jobsRequest env token sql context])
          | none => (.error (.valueError "invalid literal for int()"), [jobsRequest env token sql context])
      else (.error (.exn notLoggedInMsg), [])
  | none => (.error (.exn notLoggedInMsg), [])

/-- The GET request of `getJobStatus`. -/
def jobStatusRequest (env : Env) (token : String) (jobid : Int) : Request :=
  ⟨"GET", env.casJobsRESTUri ++ "/jobs/" ++ toString jobid, none,
    [("X-Auth-Token", token), ("Content-Type", "application/json")]⟩

/-- Model of `CasJobs.getJobStatus(jobid)`. -/
def getJobStatus (env : Env) (http : Request → Response) (jobid : Int) :
    Except PyErr JVal × List Request :=
  match env.token with
  | some token =>
      if token != "" then
        let postResponse := http (jobStatusRequest env token jobid)
        if postResponse.status != 200 then
          (.error (.exn ("Error when getting the status of job " ++ toString jobid
            ++ ".\nHttp Response from CasJobs API returned status code "
            ++ toString postResponse.status ++ ":\n" ++ postResponse.content)), [jobStatusRequest env token jobid])
        else
          match jsonLoadsE env postResponse.content with
          | .error e => (.error e, [jobStatusRequest env token jobid])
          | .ok j => (.ok j, [jobStatusRequest env token jobid])
      else (.error (.exn notLoggedInMsg), [])
  | none => (.error (.exn notLoggedInMsg), [])

/-- The fixed progress marker of `waitForJob`. -/
def waitingStr : String := "Waiting..."

/-- The cursor-erasure string: one backspace per character of the
progress marker. -/
def backStr : String := String.mk (List.replicate 10 '\x08')

/-- Membership test of the terminal status set (3, 4, 5). -/
def terminalStatus (n : Int) : Bool := n == 3 || n == 4 || n == 5

/-- Observable side effects accumulated by `waitForJob`: console prints,
issued requests, and the seconds of each sleep call. -/
structure WaitState where
  printLog : List String
  reqs : List Request
  sleeps : List Nat
deriving Repr, DecidableEq

/-- One iteration structure of the `waitForJob` polling loop, fuelled; the
HTTP oracle is indexed by the poll number so consecutive polls may answer
differently, exactly like repeated `requests.get` calls.  `none` means the
fuel ran out with the loop still running. -/
def waitForJobLoop (env : Env) (http : Nat → Request → Response) (jobid : Int)
    (verbose : Bool) : Nat → Nat → WaitState → Option (Except PyErr JVal × WaitState)
  | 0, _, _ => none
  | fuel + 1, i, st =>
      let st1 := if verbose then { st with printLog := st.printLog ++ [backStr, waitingStr] } else st
      match getJobStatus env (http i) jobid with
      | (.error e, rs) => some (.error e, { st1 with reqs := st1.reqs ++ rs })
      | (.ok jobDesc, rs) =>
          let st2 := { st1 with reqs := st1.reqs ++ rs }
          match jobDesc.getItem "Status" with
          | .error e => some (.error e, st2)
          | .ok sv =>
              match pyInt sv with
              | .error e => some (.error e, st2)
              | .ok jobStatus =>
                  if terminalStatus jobStatus then
                    some (.ok jobDesc,
                      if verbose then { st2 with printLog := st2.printLog ++ [backStr, "Done!"] } else st2)
                  else
                    waitForJobLoop env http jobid verbose fuel (i + 1) { st2 with sleeps := st2.sleeps ++ [2] }

/-- The initial observable state of `waitForJob` (the pre-loop print). -/
def waitInit (verbose : Bool) : WaitState :=
  ⟨if verbose then [waitingStr] else [], [], []⟩

/-- Model of `CasJobs.waitForJob(jobid, verbose)`, fuelled. -/
def waitForJob (env : Env) (http : Nat → Request → Response) (jobid : Int)
    (verbose : Bool) (fuel : Nat) : Option (Except PyErr JVal × WaitState) :=
  waitForJobLoop env http jobid verbose fuel 0 (waitInit verbose)

/-- Model of `CasJobs.getFitsFileFromQuery(fileName, queryString, context)`.  The
file is opened with mode "w+b" (binary, truncate-or-create); the write
argument is the `str` read from the `StringIO` wrapper returned by
`executeQuery` with format "fits". -/
def getFitsFileFromQuery (env : Env) (http : Request → Response)
    (fileName queryString context : String) : Except PyErr Bool × List Request :=
  match executeQuery env http queryString context "fits" with
  | (.error e, reqs) => (.error e, reqs)
  | (.ok fitsResponse, reqs) =>
      match fitsResponse with
      | .stringIOWrap s =>
          match binFileWrite (.str s) with
          | .error e => (.error e, reqs)
          | .ok _ => (.ok true, reqs)
      | _ => (.error (.typeError "object has no attribute read"), reqs)

/-- Model of `CasJobs.getPandasDataFrameFromQuery` with its index-column option. -/
def getPandasDataFrameFromQuery (env : Env) (http : Request → Response)
    (queryString context : String) (indexCol : Option Nat) :
    Except PyErr DataFrame × List Request :=
  match executeQuery env http queryString context "readable" with
  | (.error e, reqs) => (.error e, reqs)
  | (.ok cvsResponse, reqs) =>
      match cvsResponse with
      | .stringIOWrap s => (.ok (env.readCsv s indexCol), reqs)
      | _ => (.error (.typeError "object is not readable"), reqs)

/-- Model of `CasJobs.getNumpyArrayFromQuery(queryString, context)`. -/
def getNumpyArrayFromQuery (env : Env) (http : Request → Response)
    (queryString context : String) : Except PyErr (List (List String)) × List Request :=
  match getPandasDataFrameFromQuery env http queryString context none with
  | (.error e, reqs) => (.error e, reqs)
  | (.ok dataFrame, reqs) => (.ok (env.asMatrix dataFrame), reqs)

/-- The POST request of `uploadCSVDataToTable`; its only header is the
auth token. -/
def tablesUploadRequest (env : Env) (token context tableName : String)
    (payload : StrOrBytes) : Request :=
  ⟨"POST", env.casJobsRESTUri ++ "/contexts/" ++ context ++ "/Tables/" ++ tableName,
    some payload, [("X-Auth-Token", token)]⟩

/-- Model of `CasJobs.uploadCSVDataToTable(CVSdata, tableName, context)`. -/
def uploadCSVDataToTable (env : Env) (http : Request → Response)
    (CVSdata : StrOrBytes) (tableName context : String) :
    Except PyErr Bool × List Request :=
  match env.token with
  | some token =>
      if token != "" then
        let req := tablesUploadRequest env token context tableName CVSdata
        let postResponse := http req
        if postResponse.status != 200 then
          (.error (.exn ("Error when uploading CSV data into CasJobs table " ++ tableName
            ++ ".\nHttp Response from CasJobs API returned status code "
            ++ toString postResponse.status ++ ":\n" ++ postResponse.content)), [req])
        else (.ok true, [req])
      else (.error (.exn notLoggedInMsg), [])
  | none => (.error (.exn notLoggedInMsg), [])

/-- Model of `CasJobs.uploadPandasDataFrameToTable(dataFrame, tableName, context)`.
The first component of the result pairs the Python return value with the
frame as the caller sees it after the call (the index rename happens in
place on the argument). -/
def uploadPandasDataFrameToTable (env : Env) (http : Request → Response)
    (dataFrame : DataFrame) (tableName context : String) :
    (Except PyErr Bool × DataFrame) × List Request :=
  let df := if dataFrame.indexName == some "" || dataFrame.indexName == none then
      { dataFrame with indexName := some "index" } else dataFrame
  let out := uploadCSVDataToTable env http (.bytes df.to_csv) tableName context
  ((out.1, df), out.2)

/-! ### Concrete instances used by witnesses and counterexamples -/

/-- An empty frame, the inert output of the modelled pandas readers. -/
def dfEmpty : DataFrame := ⟨none, [], [], []⟩

/-- A concrete environment with no session token. -/
def envNoToken : Env :=
  ⟨none, "u1", "http://cas", false, fun _ => none, fun _ => "jsonbody",
    fun _ _ => dfEmpty, fun _ => []⟩

/-- A concrete logged-in environment whose json codec decodes nothing. -/
def envTok : Env :=
  ⟨some "tok", "u1", "http://cas", false, fun _ => none, fun _ => "jsonbody",
    fun _ _ => dfEmpty, fun _ => []⟩

/-- An HTTP oracle always answering 200 with body "ok". -/
def httpOk : Request → Response := fun _ => ⟨200, "ok"⟩

/-- An HTTP oracle always answering 200 with an ASCII fits body. -/
def httpFits : Request → Response := fun _ => ⟨200, "SIMPLE"⟩

/-- A frame whose row index has no name. -/
def dfUnnamed : DataFrame := ⟨none, ["0"], ["a"], [["1"]]⟩

/-- A frame whose row index is already named. -/
def dfNamed : DataFrame := ⟨some "id", ["0"], ["a"], [["1"]]⟩

/-! ### Claim theorems -/

/-- C4: for every sql string and context, executeQuery called with a format
value outside the enumeration pandas/csv/readable/fits/json fails with the
illegal-format error and issues zero network calls. -/
theorem casjobs_c4 (env : Env) (http : Request → Response) (sql context format : String)
    (h : format ∉ ["pandas", "csv", "readable", "fits", "json"]) :
    executeQuery env http sql context format =
      (.error (.exn ("Error when executing query. Illegal format parameter specification: "
        ++ format)), []) := by
  simp only [List.mem_cons, List.mem_singleton, not_or] at h
  obtain ⟨h1, h2, h3, h4, h5⟩ := h
  simp [executeQuery, acceptHeaderFor, h1, h2, h3, h4, h5]

/-- Witness for C4 at the concrete format "xml". -/
theorem casjobs_c4_witness :
    "xml" ∉ ["pandas", "csv", "readable", "fits", "json"] ∧
    executeQuery envTok httpOk "select 1" "MyDB" "xml" =
      (.error (.exn ("Error when executing query. Illegal format parameter specification: "
        ++ "xml")), []) :=
  ⟨by decide, casjobs_c4 envTok httpOk "select 1" "MyDB" "xml" (by decide)⟩

/-- C10: uploadPandasDataFrameToTable leaves the caller with a frame whose
index is named "index" when it was unnamed (None or empty), and with the
untouched frame when the index already had a non-empty name. -/
theorem casjobs_c10 (env : Env) (http : Request → Response) (df : DataFrame)
    (tableName context : String) :
    (df.indexName = none ∨ df.indexName = some "" →
      (uploadPandasDataFrameToTable env http df tableName context).1.2 =
        { df with indexName := some "index" }) ∧
    (∀ nm, df.indexName = some nm → nm ≠ "" →
      (uploadPandasDataFrameToTable env http df tableName context).1.2 = df) := by
  constructor
  · rintro (h | h) <;> simp [uploadPandasDataFrameToTable, h]
  · intro nm h hne
    simp [uploadPandasDataFrameToTable, h, hne]

/-- Witness for C10 on one unnamed-index frame and one named-index frame. -/
theorem casjobs_c10_witness :
    (dfUnnamed.indexName = none ∨ dfUnnamed.indexName = some "") ∧
    (uploadPandasDataFrameToTable envTok httpOk dfUnnamed "T" "MyDB").1.2 =
      { dfUnnamed with indexName := some "index" } ∧
    dfNamed.indexName = some "id" ∧ ("id" : String) ≠ "" ∧
    (uploadPandasDataFrameToTable envTok httpOk dfNamed "T" "MyDB").1.2 = dfNamed :=
  ⟨Or.inl rfl,
   (casjobs_c10 envTok httpOk dfUnnamed "T" "MyDB").1 (Or.inl rfl),
   rfl, by decide,
   (casjobs_c10 envTok httpOk dfNamed "T" "MyDB").2 "id" rfl (by decide)⟩

/-- C2 (code bug), evaluated at a concrete failing input: on a successful
fits query the Python 3 code wraps the UTF-8-decoded text in a StringIO
and then writes that str to a file opened in binary mode "w+b", which
raises TypeError; the binary body is never written and True is never
returned. -/
theorem casjobs_c2_bug :
    (getFitsFileFromQuery envTok httpFits "out.fits" "select 1" "MyDB").1 =
      .error (.typeError "a bytes-like object is required, not str") := rfl

/-- Supporting general fact for C2: whenever the fits query succeeds
(HTTP 200), getFitsFileFromQuery raises the TypeError of the binary-mode
write instead of returning True. -/
theorem getFits_always_raises (env : Env) (http : Request → Response)
    (fileName queryString context : String)
    (h : (http (executeQueryRequest env queryString context "application/fits")).status = 200) :
    (getFitsFileFromQuery env http fileName queryString context).1 =
      .error (.typeError "a bytes-like object is required, not str") := by
  simp [getFitsFileFromQuery, executeQuery, acceptHeaderFor, h, decodeQueryResponse, binFileWrite]

/-- C1 counterexample: with no session token, executeQuery does not raise
the not-logged-in error and does not issue zero network calls; it issues
its query request (one call) and returns the decoded body. -/
theorem casjobs_c1_counterexample :
    (executeQuery envNoToken httpOk "select 1" "MyDB" "csv").1 = .ok (.csv "ok") ∧
    (executeQuery envNoToken httpOk "select 1" "MyDB" "csv").2.length = 1 :=
  ⟨rfl, rfl⟩

/-- C1 amended: with a missing or empty token, getSchemaName, getTables,
submitJob, getJobStatus and uploadCSVDataToTable fail immediately with the
not-logged-in error and issue zero network calls; executeQuery instead
proceeds, issuing exactly its query request, whose headers carry no
X-Auth-Token entry. -/
theorem casjobs_c1 (env : Env) (http : Request → Response)
    (h : env.token = none ∨ env.token = some "") :
    getSchemaName env http = (.error (.exn notLoggedInMsg), []) ∧
    (∀ context, getTables env http context = (.error (.exn notLoggedInMsg), [])) ∧
    (∀ sql context, submitJob env http sql context = (.error (.exn notLoggedInMsg), [])) ∧
    (∀ jobid, getJobStatus env http jobid = (.error (.exn notLoggedInMsg), [])) ∧
    (∀ payload tableName context,
      uploadCSVDataToTable env http payload tableName context =
        (.error (.exn notLoggedInMsg), [])) ∧
    (∀ sql context format acceptHeader, acceptHeaderFor format = .ok acceptHeader →
      (executeQuery env http sql context format).2 =
        [executeQueryRequest env sql context acceptHeader] ∧
      (executeQueryRequest env sql context acceptHeader).headers =
        [("Content-Type", "application/json"), ("Accept", acceptHeader)]) := by
  refine ⟨?_, ?_, ?_, ?_, ?_, ?_⟩
  · rcases h with h | h <;> simp [getSchemaName, h]
  · intro context; rcases h with h | h <;> simp [getTables, h]
  · intro sql context; rcases h with h | h <;> simp [submitJob, h]
  · intro jobid; rcases h with h | h <;> simp [getJobStatus, h]
  · intro payload tableName context; rcases h with h | h <;> simp [uploadCSVDataToTable, h]
  · intro sql context format acceptHeader hacc
    constructor
    · simp only [executeQuery, hacc]
      split <;> rfl
    · rcases h with h | h <;> simp [executeQueryRequest, authHeaderOpt, h]

/-- Witness for the amended C1 at a concrete env with no token. -/
theorem casjobs_c1_witness :
    (envNoToken.token = none ∨ envNoToken.token = some "") ∧
    getSchemaName envNoToken httpOk = (.error (.exn notLoggedInMsg), []) ∧
    getTables envNoToken httpOk "MyDB" = (.error (.exn notLoggedInMsg), []) ∧
    submitJob envNoToken httpOk "select 1" "MyDB" = (.error (.exn notLoggedInMsg), []) ∧
    getJobStatus envNoToken httpOk 5 = (.error (.exn notLoggedInMsg), []) ∧
    uploadCSVDataToTable envNoToken httpOk (.bytes "x") "T" "MyDB" =
      (.error (.exn notLoggedInMsg), []) ∧
    (executeQuery envNoToken httpOk "select 1" "MyDB" "csv").2 =
      [executeQueryRequest envNoToken "select 1" "MyDB" "text/plain"] ∧
    (executeQueryRequest envNoToken "select 1" "MyDB" "text/plain").headers =
      [("Content-Type", "application/json"), ("Accept", "text/plain")] := by
  have h := casjobs_c1 envNoToken httpOk (Or.inl rfl)
  exact ⟨Or.inl rfl, h.1, h.2.1 "MyDB", h.2.2.1 "select 1" "MyDB", h.2.2.2.1 5,
    h.2.2.2.2.1 (.bytes "x") "T" "MyDB",
    (h.2.2.2.2.2 "select 1" "MyDB" "csv" "text/plain" rfl).1,
    (h.2.2.2.2.2 "select 1" "MyDB" "csv" "text/plain" rfl).2⟩

/-- C9: getSchemaName returns the string "wsid_" concatenated with the
numeric WebServicesId on a 200 response; it fails on a missing or empty
token, and on a non-success status it fails carrying the server status and
body. -/
theorem casjobs_c9 (env : Env) (http : Request → Response) :
    (∀ token j wsid, env.token = some token → token ≠ "" →
      (http (usersRequest env token)).status = 200 →
      env.jsonLoads (http (usersRequest env token)).content = some j →
      j.getItem "WebServicesId" = .ok (.num wsid) →
      getSchemaName env http = (.ok ("wsid_" ++ toString wsid), [usersRequest env token])) ∧
    (env.token = none ∨ env.token = some "" →
      getSchemaName env http = (.error (.exn notLoggedInMsg), [])) ∧
    (∀ token, env.token = some token → token ≠ "" →
      (http (usersRequest env token)).status ≠ 200 →
      ∃ pre mid, (getSchemaName env http).1 =
        .error (.exn (pre ++ toString (http (usersRequest env token)).status ++ mid
          ++ (http (usersRequest env token)).content))) := by
  refine ⟨?_, ?_, ?_⟩
  · intro token j wsid htok hne hst hjson hitem
    simp [getSchemaName, htok, hne, hst, jsonLoadsE, hjson, hitem, pyStr]
  · rintro (h | h) <;> simp [getSchemaName, h]
  · intro token htok hne hst
    refine ⟨"Error when getting schema name. Http Response from CasJobs API returned status code ",
      ":\n", ?_⟩
    simp [getSchemaName, htok, hne, hst]

/-- A logged-in environment whose json codec always decodes to a profile
object with WebServicesId 42. -/
def envSchema : Env :=
  ⟨some "tok", "u1", "http://cas", false,
    fun _ => some (.obj [("WebServicesId", .num 42)]), fun _ => "jsonbody",
    fun _ _ => dfEmpty, fun _ => []⟩

/-- An HTTP oracle always answering 500 with body "boom". -/
def http500 : Request → Response := fun _ => ⟨500, "boom"⟩

/-- Witness for C9: the three branches at concrete environments. -/
theorem casjobs_c9_witness :
    getSchemaName envSchema httpOk =
      (.ok ("wsid_" ++ toString (42 : Int)), [usersRequest envSchema "tok"]) ∧
    getSchemaName envNoToken httpOk = (.error (.exn notLoggedInMsg), []) ∧
    (∃ pre mid, (getSchemaName envTok http500).1 =
      .error (.exn (pre ++ toString (http500 (usersRequest envTok "tok")).status ++ mid
        ++ (http500 (usersRequest envTok "tok")).content))) :=
  ⟨(casjobs_c9 envSchema httpOk).1 "tok" (.obj [("WebServicesId", .num 42)]) 42 rfl
      (by decide) rfl rfl rfl,
   (casjobs_c9 envNoToken httpOk).2.1 (Or.inl rfl),
   (casjobs_c9 envTok http500).2.2 "tok" rfl (by decide) (by decide)⟩

/-- The result is a raised exception whose message contains the numeric
status code and the response body text. -/
def FailsWith {α : Type} (code : Nat) (body : String) (r : Except PyErr α) : Prop :=
  ∃ pre mid, r = .error (.exn (pre ++ toString code ++ mid ++ body))

/-- Conjunction over every operation of the module: a non-200 response
makes the operation fail with the status code and the body text in the
failure message. -/
def NonSuccessFails (env : Env) (http : Request → Response) (code : Nat) (body : String) : Prop :=
  FailsWith code body (getSchemaName env http).1 ∧
  (∀ context, FailsWith code body (getTables env http context).1) ∧
  (∀ sql context format acceptHeader, acceptHeaderFor format = .ok acceptHeader →
    FailsWith code body (executeQuery env http sql context format).1) ∧
  (∀ sql context, FailsWith code body (submitJob env http sql context).1) ∧
  (∀ jobid, FailsWith code body (getJobStatus env http jobid).1) ∧
  (∀ jobid verbose fuel, ∃ r st,
    waitForJob env (fun _ => http) jobid verbose (fuel + 1) = some (r, st) ∧
    FailsWith code body r) ∧
  (∀ fileName queryString context,
    FailsWith code body (getFitsFileFromQuery env http fileName queryString context).1) ∧
  (∀ queryString context indexCol,
    FailsWith code body (getPandasDataFrameFromQuery env http queryString context indexCol).1) ∧
  (∀ queryString context,
    FailsWith code body (getNumpyArrayFromQuery env http queryString context).1) ∧
  (∀ dataFrame tableName context,
    FailsWith code body (uploadPandasDataFrameToTable env http dataFrame tableName context).1.1) ∧
  (∀ payload tableName context,
    FailsWith code body (uploadCSVDataToTable env http payload tableName context).1)

/-- C5: with a valid token, every operation of the module fails on a
non-200 response, with a message carrying the numeric status code and the
literal response body text. -/
theorem casjobs_c5 (env : Env) (http : Request → Response) (code : Nat) (body : String)
    (token : String) (htok : env.token = some token) (hne : token ≠ "")
    (hhttp : ∀ q, http q = ⟨code, body⟩) (hcode : code ≠ 200) :
    NonSuccessFails env http code body := by
  have hq : ∀ sql context format acceptHeader, acceptHeaderFor format = .ok acceptHeader →
      FailsWith code body (executeQuery env http sql context format).1 := by
    intro sql context format acceptHeader hacc
    refine ⟨"Error when executing query. Http Response from CasJobs API returned status code ",
      ":\n", ?_⟩
    simp only [executeQuery, hacc]
    simp [hhttp, hcode]
  refine ⟨?_, ?_, hq, ?_, ?_, ?_, ?_, ?_, ?_, ?_, ?_⟩
  · refine ⟨"Error when getting schema name. Http Response from CasJobs API returned status code ",
      ":\n", ?_⟩
    simp [getSchemaName, htok, hne, hhttp, hcode]
  · intro context
    refine ⟨"Error when getting table description from database context " ++ context
      ++ ".\nHttp Response from CasJobs API returned status code ", ":\n", ?_⟩
    simp [getTables, htok, hne, hhttp, hcode]
  · intro sql context
    refine ⟨"Error when submitting a job. Http Response from CasJobs API returned status code ",
      ":\n", ?_⟩
    simp [submitJob, htok, hne, hhttp, hcode]
  · intro jobid
    refine ⟨"Error when getting the status of job " ++ toString jobid
      ++ ".\nHttp Response from CasJobs API returned status code ", ":\n", ?_⟩
    simp [getJobStatus, htok, hne, hhttp, hcode]
  · intro jobid verbose fuel
    have h5 : getJobStatus env http jobid =
        (.error (.exn ("Error when getting the status of job " ++ toString jobid
          ++ ".\nHttp Response from CasJobs API returned status code "
          ++ toString code ++ ":\n" ++ body)), [jobStatusRequest env token jobid]) := by
      simp [getJobStatus, htok, hne, hhttp, hcode]
    refine ⟨.error (.exn ("Error when getting the status of job " ++ toString jobid
        ++ ".\nHttp Response from CasJobs API returned status code "
        ++ toString code ++ ":\n" ++ body)),
      if verbose then ⟨[waitingStr, backStr, waitingStr],
        [jobStatusRequest env token jobid], []⟩
      else ⟨[], [jobStatusRequest env token jobid], []⟩, ?_, ?_⟩
    · cases verbose <;> simp [waitForJob, waitForJobLoop, waitInit, h5]
    · exact ⟨"Error when getting the status of job " ++ toString jobid
        ++ ".\nHttp Response from CasJobs API returned status code ", ":\n", rfl⟩
  · intro fileName queryString context
    refine ⟨"Error when executing query. Http Response from CasJobs API returned status code ",
      ":\n", ?_⟩
    simp [getFitsFileFromQuery, executeQuery, acceptHeaderFor, hhttp, hcode]
  · intro queryString context indexCol
    refine ⟨"Error when executing query. Http Response from CasJobs API returned status code ",
      ":\n", ?_⟩
    simp [getPandasDataFrameFromQuery, executeQuery, acceptHeaderFor, hhttp, hcode]
  · intro queryString context
    refine ⟨"Error when executing query. Http Response from CasJobs API returned status code ",
      ":\n", ?_⟩
    simp [getNumpyArrayFromQuery, getPandasDataFrameFromQuery, executeQuery, acceptHeaderFor,
      hhttp, hcode]
  · intro dataFrame tableName context
    refine ⟨"Error when uploading CSV data into CasJobs table " ++ tableName
      ++ ".\nHttp Response from CasJobs API returned status code ", ":\n", ?_⟩
    simp [uploadPandasDataFrameToTable, uploadCSVDataToTable, htok, hne, hhttp, hcode]
  · intro payload tableName context
    refine ⟨"Error when uploading CSV data into CasJobs table " ++ tableName
      ++ ".\nHttp Response from CasJobs API returned status code ", ":\n", ?_⟩
    simp [uploadCSVDataToTable, htok, hne, hhttp, hcode]

/-- Witness for C5 at a concrete logged-in environment and a constant 500
oracle. -/
theorem casjobs_c5_witness :
    envTok.token = some "tok" ∧ ("tok" : String) ≠ "" ∧ (500 : Nat) ≠ 200 ∧
    NonSuccessFails envTok http500 500 "boom" :=
  ⟨rfl, by decide, by decide,
   casjobs_c5 envTok http500 500 "boom" "tok" rfl (by decide) (fun _ => rfl) (by decide)⟩

/-- C6: on a 200 response, executeQuery with format "pandas" parses the
body and builds a frame from the first Result element (Data as rows,
Columns as labels); format "csv" returns the raw text body verbatim;
format "json" returns the decoded JSON record as-is. -/
theorem casjobs_c6 (env : Env) (http : Request → Response) (sql context r : String)
    (j resArr first data cols : JVal)
    (hhttp : ∀ q, http q = ⟨200, r⟩)
    (hj : env.jsonLoads r = some j)
    (hres : j.getItem "Result" = .ok resArr)
    (h0 : resArr.getIdx 0 = .ok first)
    (hdata : first.getItem "Data" = .ok data)
    (hcols : first.getItem "Columns" = .ok cols) :
    (executeQuery env http sql context "pandas").1 = .ok (.frame data cols) ∧
    (executeQuery env http sql context "csv").1 = .ok (.csv r) ∧
    (executeQuery env http sql context "json").1 = .ok (.jsonVal j) := by
  refine ⟨?_, ?_, ?_⟩ <;>
    simp [executeQuery, acceptHeaderFor, decodeQueryResponse, jsonLoadsE, hhttp, hj, hres, h0,
      hdata, hcols]

/-- A decoded query-result document with one column and one row. -/
def resultDoc : JVal :=
  .obj [("Result", .arr [.obj [("Columns", .arr [.str "foo"]),
    ("Data", .arr [.arr [.num 1]])]])]

/-- A logged-in environment whose json codec always decodes to
`resultDoc`. -/
def envQuery : Env :=
  ⟨some "tok", "u1", "http://cas", false, fun _ => some resultDoc, fun _ => "jsonbody",
    fun _ _ => dfEmpty, fun _ => []⟩

/-- An HTTP oracle always answering 200 with body "doc". -/
def httpDoc : Request → Response := fun _ => ⟨200, "doc"⟩

/-- Witness for C6 at a concrete one-cell result document. -/
theorem casjobs_c6_witness :
    (executeQuery envQuery httpDoc "select 1" "MyDB" "pandas").1 =
      .ok (.frame (.arr [.arr [.num 1]]) (.arr [.str "foo"])) ∧
    (executeQuery envQuery httpDoc "select 1" "MyDB" "csv").1 = .ok (.csv "doc") ∧
    (executeQuery envQuery httpDoc "select 1" "MyDB" "json").1 = .ok (.jsonVal resultDoc) :=
  casjobs_c6 envQuery httpDoc "select 1" "MyDB" "doc" resultDoc
    (.arr [.obj [("Columns", .arr [.str "foo"]), ("Data", .arr [.arr [.num 1]])]])
    (.obj [("Columns", .arr [.str "foo"]), ("Data", .arr [.arr [.num 1]])])
    (.arr [.arr [.num 1]]) (.arr [.str "foo"])
    (fun _ => rfl) rfl rfl rfl rfl rfl

/-- The serialization of any frame whose index is named "index" starts
with that label, followed by a comma (when columns follow) or a newline
(when there are none). -/
theorem to_csv_head (df : DataFrame) (h : df.indexName = some "index") :
    ∃ t u, df.to_csv = "index" ++ t ∧ (t = "," ++ u ∨ t = "\n" ++ u) := by
  have hcsv : df.to_csv = joinWith "\n"
      (joinWith "," ("index" :: df.columns) ::
        (df.indexVals.zip df.rows).map (fun p => joinWith "," (p.1 :: p.2))) ++ "\n" := by
    rw [DataFrame.to_csv, h]
    rfl
  rw [hcsv]
  cases df.columns with
  | nil =>
    cases hz : (df.indexVals.zip df.rows).map (fun p => joinWith "," (p.1 :: p.2)) with
    | nil =>
      refine ⟨"\n", "", ?_, Or.inr ?_⟩
      · simp [joinWith]
      · rw [String.append_empty]
    | cons b bs =>
      refine ⟨"\n" ++ (joinWith "\n" (b :: bs) ++ "\n"),
        joinWith "\n" (b :: bs) ++ "\n", ?_, Or.inr rfl⟩
      simp only [joinWith, String.append_assoc]
  | cons c cs =>
    cases hz : (df.indexVals.zip df.rows).map (fun p => joinWith "," (p.1 :: p.2)) with
    | nil =>
      refine ⟨"," ++ (joinWith "," (c :: cs) ++ "\n"),
        joinWith "," (c :: cs) ++ "\n", ?_, Or.inl rfl⟩
      simp only [joinWith, String.append_assoc]
    | cons b bs =>
      refine ⟨"," ++ (joinWith "," (c :: cs) ++ ("\n" ++ (joinWith "\n" (b :: bs) ++ "\n"))),
        joinWith "," (c :: cs) ++ ("\n" ++ (joinWith "\n" (b :: bs) ++ "\n")), ?_, Or.inl rfl⟩
      simp only [joinWith, String.append_assoc]

/-- C7: on a frame with unnamed index (None or empty), the upload helper
renames the index to "index", serializes the full frame, encodes it as the
UTF-8 bytes payload handed to uploadCSVDataToTable, and the serialized
header row starts with the column label "index". -/
theorem casjobs_c7 (env : Env) (http : Request → Response) (df : DataFrame)
    (tableName context : String)
    (h : df.indexName = none ∨ df.indexName = some "") :
    uploadPandasDataFrameToTable env http df tableName context =
      (((uploadCSVDataToTable env http
          (.bytes (DataFrame.to_csv { df with indexName := some "index" }))
          tableName context).1,
        { df with indexName := some "index" }),
       (uploadCSVDataToTable env http
          (.bytes (DataFrame.to_csv { df with indexName := some "index" }))
          tableName context).2) ∧
    (∃ t u, DataFrame.to_csv { df with indexName := some "index" } = "index" ++ t ∧
      (t = "," ++ u ∨ t = "\n" ++ u)) := by
  constructor
  · rcases h with h | h <;> simp [uploadPandasDataFrameToTable, h]
  · exact to_csv_head _ rfl

/-- Witness for C7 at a concrete unnamed-index frame. -/
theorem casjobs_c7_witness :
    (dfUnnamed.indexName = none ∨ dfUnnamed.indexName = some "") ∧
    (uploadPandasDataFrameToTable envTok httpOk dfUnnamed "T" "MyDB" =
      (((uploadCSVDataToTable envTok httpOk
          (.bytes (DataFrame.to_csv { dfUnnamed with indexName := some "index" }))
          "T" "MyDB").1,
        { dfUnnamed with indexName := some "index" }),
       (uploadCSVDataToTable envTok httpOk
          (.bytes (DataFrame.to_csv { dfUnnamed with indexName := some "index" }))
          "T" "MyDB").2) ∧
    (∃ t u, DataFrame.to_csv { dfUnnamed with indexName := some "index" } = "index" ++ t ∧
      (t = "," ++ u ∨ t = "\n" ++ u))) :=
  ⟨Or.inl rfl, casjobs_c7 envTok httpOk dfUnnamed "T" "MyDB" (Or.inl rfl)⟩

/-- getJobStatus on a 200 response whose body decodes to a record. -/
theorem getJobStatus_ok (env : Env) (h : Request → Response) (token : String) (jobid : Int)
    (jd : JVal) (htok : env.token = some token) (hne : token ≠ "")
    (hst : (h (jobStatusRequest env token jobid)).status = 200)
    (hjson : env.jsonLoads (h (jobStatusRequest env token jobid)).content = some jd) :
    getJobStatus env h jobid = (.ok jd, [jobStatusRequest env token jobid]) := by
  simp [getJobStatus, htok, hne, hst, jsonLoadsE, hjson]

/-- One unfolding of the poll loop at a terminal status. -/
theorem waitLoop_step_terminal (env : Env) (http : Nat → Request → Response) (jobid : Int)
    (verbose : Bool) (i fuel : Nat) (st : WaitState) (token : String) (jd : JVal) (s : Int)
    (hg : getJobStatus env (http i) jobid = (.ok jd, [jobStatusRequest env token jobid]))
    (hs : jd.getItem "Status" = .ok (.num s)) (hterm : terminalStatus s = true) :
    waitForJobLoop env http jobid verbose (fuel + 1) i st =
      some (.ok jd,
        if verbose then
          ⟨st.printLog ++ [backStr, waitingStr, backStr, "Done!"],
            st.reqs ++ [jobStatusRequest env token jobid], st.sleeps⟩
        else ⟨st.printLog, st.reqs ++ [jobStatusRequest env token jobid], st.sleeps⟩) := by
  cases verbose <;> simp [waitForJobLoop, hg, hs, pyInt, hterm]

/-- One unfolding of the poll loop at a non-terminal status: a 2-second
sleep is recorded and the loop continues at the next poll index. -/
theorem waitLoop_step_pending (env : Env) (http : Nat → Request → Response) (jobid : Int)
    (verbose : Bool) (i fuel : Nat) (st : WaitState) (token : String) (jd : JVal) (s : Int)
    (hg : getJobStatus env (http i) jobid = (.ok jd, [jobStatusRequest env token jobid]))
    (hs : jd.getItem "Status" = .ok (.num s)) (hterm : terminalStatus s = false) :
    waitForJobLoop env http jobid verbose (fuel + 1) i st =
      waitForJobLoop env http jobid verbose fuel (i + 1)
        (if verbose then
          ⟨st.printLog ++ [backStr, waitingStr],
            st.reqs ++ [jobStatusRequest env token jobid], st.sleeps ++ [2]⟩
        else ⟨st.printLog, st.reqs ++ [jobStatusRequest env token jobid], st.sleeps ++ [2]⟩) := by
  cases verbose <;> simp [waitForJobLoop, hg, hs, pyInt, hterm]

/-- Running the poll loop from index i when the first terminal status is n
polls ahead: it returns the record of poll i+n, sleeps 2 seconds after each
of the n non-terminal polls, and issues n+1 requests. -/
theorem waitLoop_terminal (env : Env) (http : Nat → Request → Response) (jobid : Int)
    (verbose : Bool) (token : String) (recs : Nat → JVal) (sts : Nat → Int)
    (htok : env.token = some token) (hne : token ≠ "")
    (hst : ∀ k, (http k (jobStatusRequest env token jobid)).status = 200)
    (hjson : ∀ k, env.jsonLoads (http k (jobStatusRequest env token jobid)).content = some (recs k))
    (hstat : ∀ k, (recs k).getItem "Status" = .ok (.num (sts k))) :
    ∀ n i st fuel, n < fuel →
      (∀ k, k < n → terminalStatus (sts (i + k)) = false) →
      terminalStatus (sts (i + n)) = true →
      ∃ st' : WaitState,
        waitForJobLoop env http jobid verbose fuel i st = some (.ok (recs (i + n)), st') ∧
        st'.sleeps = st.sleeps ++ List.replicate n 2 ∧
        st'.reqs.length = st.reqs.length + (n + 1) := by
  intro n
  induction n with
  | zero =>
    intro i st fuel hfuel hk hterm
    obtain ⟨f, rfl⟩ : ∃ f, fuel = f + 1 := ⟨fuel - 1, by omega⟩
    have hg := getJobStatus_ok env (http i) token jobid (recs i) htok hne (hst i) (hjson i)
    rw [waitLoop_step_terminal env http jobid verbose i f st token (recs i) (sts i) hg
      (hstat i) (by simpa using hterm)]
    refine ⟨_, rfl, ?_, ?_⟩ <;> cases verbose <;> simp
  | succ m ih =>
    intro i st fuel hfuel hk hterm
    obtain ⟨f, rfl⟩ : ∃ f, fuel = f + 1 := ⟨fuel - 1, by omega⟩
    have hg := getJobStatus_ok env (http i) token jobid (recs i) htok hne (hst i) (hjson i)
    have h0 : terminalStatus (sts i) = false := by simpa using hk 0 (Nat.succ_pos m)
    rw [waitLoop_step_pending env http jobid verbose i f st token (recs i) (sts i) hg
      (hstat i) h0]
    have hk' : ∀ k, k < m → terminalStatus (sts (i + 1 + k)) = false := by
      intro k hkm
      have h1 := hk (k + 1) (by omega)
      have harith : i + (k + 1) = i + 1 + k := by omega
      rwa [harith] at h1
    have hterm' : terminalStatus (sts (i + 1 + m)) = true := by
      have harith : i + (m + 1) = i + 1 + m := by omega
      rwa [harith] at hterm
    obtain ⟨st', h1, h2, h3⟩ := ih (i + 1)
      (if verbose then
        ⟨st.printLog ++ [backStr, waitingStr],
          st.reqs ++ [jobStatusRequest env token jobid], st.sleeps ++ [2]⟩
      else ⟨st.printLog, st.reqs ++ [jobStatusRequest env token jobid], st.sleeps ++ [2]⟩)
      f (by omega) hk' hterm'
    refine ⟨st', ?_, ?_, ?_⟩
    · rw [h1]
      have harith : i + 1 + m = i + (m + 1) := by omega
      rw [harith]
    · rw [h2]
      cases verbose <;> simp [List.replicate_succ, List.append_assoc]
    · rw [h3]
      cases verbose <;> simp <;> omega

/-- With every polled status non-terminal, the loop consumes all its fuel
and never returns. -/
theorem waitLoop_diverges (env : Env) (http : Nat → Request → Response) (jobid : Int)
    (verbose : Bool) (token : String) (recs : Nat → JVal) (sts : Nat → Int)
    (htok : env.token = some token) (hne : token ≠ "")
    (hst : ∀ k, (http k (jobStatusRequest env token jobid)).status = 200)
    (hjson : ∀ k, env.jsonLoads (http k (jobStatusRequest env token jobid)).content = some (recs k))
    (hstat : ∀ k, (recs k).getItem "Status" = .ok (.num (sts k)))
    (hnon : ∀ k, terminalStatus (sts k) = false) :
    ∀ fuel i st, waitForJobLoop env http jobid verbose fuel i st = none := by
  intro fuel
  induction fuel with
  | zero => intro i st; rfl
  | succ f ih =>
    intro i st
    have hg := getJobStatus_ok env (http i) token jobid (recs i) htok hne (hst i) (hjson i)
    rw [waitLoop_step_pending env http jobid verbose i f st token (recs i) (sts i) hg
      (hstat i) (hnon i)]
    exact ih _ _

/-- C3: waitForJob terminates at exactly the first poll whose Status is in
the terminal set (3, 4, 5), returning the full record of that poll, having
slept a fixed 2 seconds after each prior non-terminal poll; with no
terminal poll it never returns (every fuel bound is exhausted). -/
theorem casjobs_c3 (env : Env) (http : Nat → Request → Response) (jobid : Int)
    (verbose : Bool) (token : String) (recs : Nat → JVal) (sts : Nat → Int)
    (htok : env.token = some token) (hne : token ≠ "")
    (hst : ∀ k, (http k (jobStatusRequest env token jobid)).status = 200)
    (hjson : ∀ k, env.jsonLoads (http k (jobStatusRequest env token jobid)).content = some (recs k))
    (hstat : ∀ k, (recs k).getItem "Status" = .ok (.num (sts k))) :
    (∀ n fuel, n < fuel →
      (∀ k, k < n → terminalStatus (sts k) = false) → terminalStatus (sts n) = true →
      ∃ st : WaitState, waitForJob env http jobid verbose fuel = some (.ok (recs n), st) ∧
        st.sleeps = List.replicate n 2 ∧ st.reqs.length = n + 1) ∧
    ((∀ k, terminalStatus (sts k) = false) →
      ∀ fuel, waitForJob env http jobid verbose fuel = none) := by
  constructor
  · intro n fuel hfuel hk hterm
    obtain ⟨st', h1, h2, h3⟩ := waitLoop_terminal env http jobid verbose token recs sts
      htok hne hst hjson hstat n 0 (waitInit verbose) fuel hfuel
      (by simpa using hk) (by simpa using hterm)
    refine ⟨st', ?_, ?_, ?_⟩
    · simpa [waitForJob] using h1
    · simpa [waitInit] using h2
    · simpa [waitInit] using h3
  · intro hnon fuel
    exact waitLoop_diverges env http jobid verbose token recs sts
      htok hne hst hjson hstat hnon fuel 0 (waitInit verbose)

/-- A logged-in environment whose json codec reads the polled body as a
status record: status 1 (pending) while the body is shorter than 3
characters, status 4 (terminal) afterwards. -/
def pollEnv : Env :=
  ⟨some "tok", "u1", "http://cas", false,
    fun s => some (.obj [("Status", .num (if s.length < 3 then 1 else 4))]),
    fun _ => "jsonbody", fun _ _ => dfEmpty, fun _ => []⟩

/-- A poll oracle whose i-th response body has i characters: the decoded
status sequence is 1, 1, 1, 4, 4, ... -/
def pollHttp : Nat → Request → Response :=
  fun i _ => ⟨200, String.mk (List.replicate i 'a')⟩

/-- The records decoded from `pollHttp` by `pollEnv`. -/
def pollRecs : Nat → JVal := fun i => .obj [("Status", .num (if i < 3 then 1 else 4))]

/-- The integer statuses of `pollRecs`. -/
def pollSts : Nat → Int := fun i => if i < 3 then 1 else 4

/-- A poll oracle whose responses always decode to the pending status 1. -/
def pollHttpPending : Nat → Request → Response := fun _ _ => ⟨200, ""⟩

/-- Witness for C3: a 1,1,1,4 status sequence terminates at the fourth
poll with three sleeps, and an all-pending sequence returns nothing at
fuel 5. -/
theorem casjobs_c3_witness :
    (∃ st : WaitState,
      waitForJob pollEnv pollHttp 7 true 4 = some (.ok (pollRecs 3), st) ∧
      st.sleeps = List.replicate 3 2 ∧ st.reqs.length = 3 + 1) ∧
    waitForJob pollEnv pollHttpPending 7 true 5 = none := by
  constructor
  · refine (casjobs_c3 pollEnv pollHttp 7 true "tok" pollRecs pollSts rfl (by decide)
      (fun k => rfl) ?_ ?_).1 3 4 (by omega) ?_ (by decide)
    · intro k
      have hlen : (String.mk (List.replicate k 'a')).length = k := by
        simp [String.length]
      simp only [pollEnv, pollHttp, pollRecs]
      simp only [hlen]
    · intro k
      simp [pollRecs, pollSts, JVal.getItem, jlookup]
    · intro k hk
      simp [pollSts, hk, terminalStatus]
  · exact (casjobs_c3 pollEnv pollHttpPending 7 true "tok" (fun _ => .obj [("Status", .num 1)])
      (fun _ => 1) rfl (by decide) (fun k => rfl) (fun k => rfl) (fun k => rfl)).2
      (fun k => rfl) 5

/-- The verbose-independent part of a waitForJob outcome: the returned
value, the issued requests and the recorded sleeps. -/
def waitOutcome (o : Option (Except PyErr JVal × WaitState)) :
    Option (Except PyErr JVal × List Request × List Nat) :=
  o.map (fun p => (p.1, p.2.reqs, p.2.sleeps))

/-- The poll loop gives verbose-equal outcomes from states agreeing on
requests and sleeps. -/
theorem waitLoop_verbose_independent (env : Env) (http : Nat → Request → Response)
    (jobid : Int) :
    ∀ fuel i st1 st2, st1.reqs = st2.reqs → st1.sleeps = st2.sleeps →
      waitOutcome (waitForJobLoop env http jobid true fuel i st1) =
      waitOutcome (waitForJobLoop env http jobid false fuel i st2) := by
  intro fuel
  induction fuel with
  | zero => intro i st1 st2 _ _; rfl
  | succ f ih =>
    intro i st1 st2 hreq hsl
    simp only [waitForJobLoop, if_true, if_false]
    rcases hg : getJobStatus env (http i) jobid with ⟨res, rs⟩
    cases res with
    | error e => simp [waitOutcome, hreq, hsl]
    | ok jd =>
        cases hs : jd.getItem "Status" with
        | error e => simp [hs, waitOutcome, hreq, hsl]
        | ok sv =>
            cases hp : pyInt sv with
            | error e => simp [hs, hp, waitOutcome, hreq, hsl]
            | ok s =>
                by_cases ht : terminalStatus s = true
                · simp [hs, hp, ht, waitOutcome, hreq, hsl]
                · have ht' : terminalStatus s = false := by simpa using ht
                  simp only [hs, hp, ht', Bool.false_eq_true, if_false, hreq, hsl]
                  exact ih (i + 1) _ _ rfl rfl

/-- C8: waitForJob returns the same outcome (record, requests and sleeps)
for verbose=true and verbose=false; the flag only changes the printed
progress output. -/
theorem casjobs_c8 (env : Env) (http : Nat → Request → Response) (jobid : Int) (fuel : Nat) :
    waitOutcome (waitForJob env http jobid true fuel) =
    waitOutcome (waitForJob env http jobid false fuel) :=
  waitLoop_verbose_independent env http jobid fuel 0 (waitInit true) (waitInit false) rfl rfl

end CasJobs
